import Mathlib

/-!
Shallow embedding of `custom_components/elero/cover.py` (Elero cover
platform with time-based position tracking), restricted to the parts the
verified claims are about: the `TravelCalculator` travel-time position
estimator and the `EleroCover` status-to-state reconciliation logic.

Modelling conventions:
* Wall-clock time (`time.time()`) is passed explicitly as a rational
  `now : ℚ` argument to every method that samples the clock.
* Python `None` becomes `Option`; Python ints become `ℤ`; durations and
  timestamps are exact rationals.
* Python `int(x)` truncates toward zero; modelled by `truncInt`.
* The radio transmitter collaborator is observed through the list of
  commands the cover sends to it (`sent`); the source's command methods
  contain no transmitter call, so the embedding never extends the list.
* Logging calls carry no state; the error-`_LOGGER.error` reports of
  `set_states` are modelled by the separate flag `set_states_error_logged`.
-/

/-- Python `int(x)`: truncation toward zero of a rational. -/
def truncInt (q : ℚ) : ℤ :=
  if 0 ≤ q then ⌊q⌋ else ⌈q⌉

/-- Position slider constants of the cover platform (module-level constants
of `cover.py`). -/
def POSITION_CLOSED : ℤ := 0

def POSITION_INTERMEDIATE : ℤ := 75

def POSITION_OPEN : ℤ := 100

def POSITION_TILT_VENTILATION : ℤ := 25

def POSITION_UNDEFINED : ℤ := 50

/-- `class TravelStatus(Enum)` from `cover.py`. -/
inductive TravelStatus where
  | DIRECTION_UP
  | DIRECTION_DOWN
  | STOPPED
deriving DecidableEq, Repr

/-- State of `class TravelCalculator` (`cover.py` lines 156-233).
Field names keep the Python names with the leading underscore dropped. -/
structure TravelCalculator where
  travel_direction : TravelStatus
  travel_time_down : ℚ
  travel_time_up : ℚ
  last_known_position : Option ℤ
  last_known_position_timestamp : ℚ
  position_confirmed : Bool
  travel_to_position : Option ℤ
  position_closed : ℤ
  position_open : ℤ
deriving DecidableEq, Repr

namespace TravelCalculator

/-- `TravelCalculator.__init__(travel_time_down, travel_time_up)`. -/
def init (travel_time_down travel_time_up : ℚ) : TravelCalculator where
  travel_direction := TravelStatus.STOPPED
  travel_time_down := travel_time_down
  travel_time_up := travel_time_up
  last_known_position := none
  last_known_position_timestamp := 0
  position_confirmed := false
  travel_to_position := none
  position_closed := 100
  position_open := 0

/-- `TravelCalculator.update_position(position)`: the flag is only ever
set to `true` (the source has no `else` branch resetting it). -/
def update_position (c : TravelCalculator) (now : ℚ) (position : ℤ) :
    TravelCalculator :=
  { c with
    last_known_position := some position
    last_known_position_timestamp := now
    position_confirmed :=
      if some position = c.travel_to_position then true
      else c.position_confirmed }

/-- `TravelCalculator.set_position(position)`. -/
def set_position (c : TravelCalculator) (now : ℚ) (position : ℤ) :
    TravelCalculator :=
  update_position { c with travel_to_position := some position } now position

/-- `TravelCalculator.calculate_travel_time(from_position, to_position)`. -/
def calculate_travel_time (c : TravelCalculator)
    (from_position to_position : ℤ) : ℚ :=
  let travel_range : ℤ := to_position - from_position
  let travel_time_full : ℚ :=
    if travel_range > 0 then c.travel_time_down else c.travel_time_up
  travel_time_full * ((travel_range.natAbs : ℚ)) / ((c.position_closed : ℚ))

/-- `TravelCalculator._calculate_position()` (leading underscore dropped).
If either endpoint is unknown the source returns `_last_known_position`. -/
def calculate_position (c : TravelCalculator) (now : ℚ) : Option ℤ :=
  match c.travel_to_position, c.last_known_position with
  | some tp, some lp =>
      let relative_position : ℤ := tp - lp
      let remaining_travel_time := c.calculate_travel_time lp tp
      if remaining_travel_time = 0 then some lp
      else
        let progress :=
          (now - c.last_known_position_timestamp) / remaining_travel_time
        some (truncInt ((lp : ℚ) + (relative_position : ℚ) * progress))
  | _, _ => c.last_known_position

/-- `TravelCalculator.current_position()`. -/
def current_position (c : TravelCalculator) (now : ℚ) : Option ℤ :=
  if c.position_confirmed then c.last_known_position
  else c.calculate_position now

/-- `TravelCalculator.stop()`: a no-op when no position is known. -/
def stop (c : TravelCalculator) (now : ℚ) : TravelCalculator :=
  match c.current_position now with
  | none => c
  | some stop_position =>
      { c with
        last_known_position := some stop_position
        travel_to_position := some stop_position
        position_confirmed := false
        travel_direction := TravelStatus.STOPPED }

/-- `TravelCalculator.start_travel(_travel_to_position)`.  In the source
the direction comparison reads `_last_known_position` after `stop()`;
`stop` keeps a known position known, so the `none` branch of the inner
match is unreachable (Python would raise on `int > None`). -/
def start_travel (c : TravelCalculator) (now : ℚ) (target : ℤ) :
    TravelCalculator :=
  match c.last_known_position with
  | none => c.set_position now target
  | some _ =>
      let c1 := c.stop now
      { c1 with
        last_known_position_timestamp := now
        travel_to_position := some target
        position_confirmed := false
        travel_direction :=
          match c1.last_known_position with
          | some lp =>
              if target > lp then TravelStatus.DIRECTION_DOWN
              else TravelStatus.DIRECTION_UP
          | none => TravelStatus.STOPPED }

end TravelCalculator

/-- The Elero status codes imported from `custom_components/elero`
(opaque enumerated vocabulary); `UNRECOGNIZED_CODE` stands for any code
outside the handled set (the final `else` branch of `set_states`). -/
inductive EleroInfo where
  | INFO_NO_INFORMATION
  | INFO_TOP_POSITION_STOP
  | INFO_BOTTOM_POSITION_STOP
  | INFO_INTERMEDIATE_POSITION_STOP
  | INFO_TILT_VENTILATION_POS_STOP
  | INFO_START_TO_MOVE_UP
  | INFO_START_TO_MOVE_DOWN
  | INFO_MOVING_UP
  | INFO_MOVING_DOWN
  | INFO_STOPPED_IN_UNDEFINED_POSITION
  | INFO_TOP_POS_STOP_WICH_TILT_POS
  | INFO_BOTTOM_POS_STOP_WICH_INT_POS
  | INFO_BLOCKING
  | INFO_OVERHEATED
  | INFO_TIMEOUT
  | INFO_SWITCHING_DEVICE_SWITCHED_ON
  | INFO_SWITCHING_DEVICE_SWITCHED_OFF
  | UNRECOGNIZED_CODE
deriving DecidableEq, Repr

/-- The normalized cover states (`STATE_*` string constants used by
`set_states`). -/
inductive HAState where
  | STATE_UNKNOWN
  | STATE_OPEN
  | STATE_CLOSED
  | STATE_OPENING
  | STATE_CLOSING
  | STATE_INTERMEDIATE
  | STATE_TILT_VENTILATION
  | STATE_UNDEFINED
deriving DecidableEq, Repr

/-- Commands a cover could send to its transmitter collaborator.  The
source's command methods contain only placeholder comments where the send
should be, so the embedding never appends to the trace. -/
inductive TransmitterCommand where
  | command_up
  | command_down
  | command_stop
  | command_set_position (p : ℤ)
deriving DecidableEq, Repr

/-- State of `class EleroCover` (`cover.py` lines 236-491), restricted to
the fields the claims are about.  `position` is the cached `_position`
field; the `is_closed` property is computed from it.  `closed` is the
separate `_closed` flag written by `set_states`.  `sent` is the observable
trace of commands handed to the transmitter collaborator. -/
structure EleroCover where
  travel_calculator : TravelCalculator
  position : Option ℤ
  tilt_position : Option ℤ
  is_opening : Option Bool
  is_closing : Option Bool
  closed : Option Bool
  state : Option HAState
  elero_state : Option EleroInfo
  sent : List TransmitterCommand
deriving DecidableEq, Repr

namespace EleroCover

/-- `EleroCover.__init__`: `_position = POSITION_CLOSED` (assumed closed)
and `travel_calculator.set_position(self._position)`.  The constructor's
`TravelCalculator(travel_time_down, travel_time_up)` argument order is
kept. -/
def init (travel_time_up travel_time_down now : ℚ) : EleroCover where
  travel_calculator :=
    (TravelCalculator.init travel_time_down travel_time_up).set_position
      now POSITION_CLOSED
  position := some POSITION_CLOSED
  tilt_position := none
  is_opening := none
  is_closing := none
  closed := none
  state := none
  elero_state := none
  sent := []

/-- Property `EleroCover.is_closed`: reads only the cached `_position`. -/
def is_closed (c : EleroCover) : Option Bool :=
  match c.position with
  | none => none
  | some p => some (decide (p = POSITION_CLOSED))

/-- Property `EleroCover.current_cover_position`. -/
def current_cover_position (c : EleroCover) (now : ℚ) : Option ℤ :=
  c.travel_calculator.current_position now

/-- `EleroCover.set_cover_position(position)`: starts estimator travel; the
"Send position command to the Elero device" comment has no code behind
it. -/
def set_cover_position (c : EleroCover) (now : ℚ) (position : ℤ) :
    EleroCover :=
  { c with travel_calculator := c.travel_calculator.start_travel now position }

/-- `EleroCover.open_cover()`. -/
def open_cover (c : EleroCover) (now : ℚ) : EleroCover :=
  { c with
    travel_calculator :=
      c.travel_calculator.start_travel now c.travel_calculator.position_open
    is_opening := some true
    is_closing := some false }

/-- `EleroCover.close_cover()`. -/
def close_cover (c : EleroCover) (now : ℚ) : EleroCover :=
  { c with
    travel_calculator :=
      c.travel_calculator.start_travel now c.travel_calculator.position_closed
    is_closing := some true
    is_opening := some false }

/-- `EleroCover.stop_cover()`. -/
def stop_cover (c : EleroCover) (now : ℚ) : EleroCover :=
  { c with
    travel_calculator := c.travel_calculator.stop now
    is_opening := some false
    is_closing := some false }

/-- `EleroCover.update()`. -/
def update (c : EleroCover) (now : ℚ) : EleroCover :=
  { c with position := c.travel_calculator.current_position now }

/-- `EleroCover.set_states()`: the status dispatch chain on
`self._elero_state = self._response.get("status")`.  The method never
touches `self.travel_calculator`. -/
def set_states (c : EleroCover) (status : EleroInfo) : EleroCover :=
  let c0 := { c with elero_state := some status }
  match status with
  | .INFO_NO_INFORMATION =>
      { c0 with
        closed := none, is_closing := none, is_opening := none
        state := some HAState.STATE_UNKNOWN
        position := none, tilt_position := none }
  | .INFO_TOP_POSITION_STOP =>
      { c0 with
        closed := some false, is_closing := some false
        is_opening := some false
        state := some HAState.STATE_OPEN
        position := some POSITION_OPEN
        tilt_position := some POSITION_UNDEFINED }
  | .INFO_BOTTOM_POSITION_STOP =>
      { c0 with
        closed := some true, is_closing := some false
        is_opening := some false
        state := some HAState.STATE_CLOSED
        position := some POSITION_CLOSED
        tilt_position := some POSITION_UNDEFINED }
  | .INFO_INTERMEDIATE_POSITION_STOP =>
      { c0 with
        closed := some false, is_closing := some false
        is_opening := some false
        state := some HAState.STATE_INTERMEDIATE
        position := some POSITION_INTERMEDIATE
        tilt_position := some POSITION_INTERMEDIATE }
  | .INFO_TILT_VENTILATION_POS_STOP =>
      { c0 with
        closed := some false, is_closing := some false
        is_opening := some false
        state := some HAState.STATE_TILT_VENTILATION
        position := some POSITION_TILT_VENTILATION
        tilt_position := some POSITION_TILT_VENTILATION }
  | .INFO_START_TO_MOVE_UP =>
      { c0 with
        closed := some false, is_closing := some false
        is_opening := some true
        state := some HAState.STATE_OPENING
        position := some POSITION_UNDEFINED
        tilt_position := some POSITION_UNDEFINED }
  | .INFO_START_TO_MOVE_DOWN =>
      { c0 with
        closed := some false, is_closing := some true
        is_opening := some false
        state := some HAState.STATE_CLOSING
        position := some POSITION_UNDEFINED
        tilt_position := some POSITION_UNDEFINED }
  | .INFO_MOVING_UP =>
      { c0 with
        closed := some false, is_closing := some false
        is_opening := some true
        state := some HAState.STATE_OPENING
        position := some POSITION_UNDEFINED
        tilt_position := some POSITION_UNDEFINED }
  | .INFO_MOVING_DOWN =>
      { c0 with
        closed := some false, is_closing := some true
        is_opening := some false
        state := some HAState.STATE_CLOSING
        position := some POSITION_UNDEFINED
        tilt_position := some POSITION_UNDEFINED }
  | .INFO_STOPPED_IN_UNDEFINED_POSITION =>
      { c0 with
        closed := some false, is_closing := some false
        is_opening := some false
        state := some HAState.STATE_UNDEFINED
        position := some POSITION_UNDEFINED
        tilt_position := some POSITION_UNDEFINED }
  | .INFO_TOP_POS_STOP_WICH_TILT_POS =>
      { c0 with
        closed := some false, is_closing := some false
        is_opening := some false
        state := some HAState.STATE_TILT_VENTILATION
        position := some POSITION_TILT_VENTILATION
        tilt_position := some POSITION_TILT_VENTILATION }
  | .INFO_BOTTOM_POS_STOP_WICH_INT_POS =>
      { c0 with
        closed := some true, is_closing := some false
        is_opening := some false
        state := some HAState.STATE_INTERMEDIATE
        position := some POSITION_INTERMEDIATE
        tilt_position := some POSITION_INTERMEDIATE }
  | .INFO_BLOCKING | .INFO_OVERHEATED | .INFO_TIMEOUT =>
      { c0 with
        closed := none, is_closing := none, is_opening := none
        state := some HAState.STATE_UNKNOWN
        position := none, tilt_position := none }
  | .INFO_SWITCHING_DEVICE_SWITCHED_ON
  | .INFO_SWITCHING_DEVICE_SWITCHED_OFF =>
      { c0 with
        closed := none, is_closing := none, is_opening := none
        state := some HAState.STATE_UNKNOWN
        position := none, tilt_position := none }
  | .UNRECOGNIZED_CODE =>
      { c0 with
        closed := none, is_closing := none, is_opening := none
        state := some HAState.STATE_UNKNOWN
        position := none, tilt_position := none }

/-- Which `set_states` branches emit a `_LOGGER.error(...)` report: the
device-fault branch and the unhandled-code branch. -/
def set_states_error_logged (status : EleroInfo) : Bool :=
  match status with
  | .INFO_BLOCKING | .INFO_OVERHEATED | .INFO_TIMEOUT => true
  | .UNRECOGNIZED_CODE => true
  | _ => false

end EleroCover

/-! ## Helper lemmas -/

theorem truncInt_eq_floor {q : ℚ} (h : 0 ≤ q) : truncInt q = ⌊q⌋ := by
  simp [truncInt, h]

theorem truncInt_nonneg {q : ℚ} (h : 0 ≤ q) : 0 ≤ truncInt q := by
  rw [truncInt_eq_floor h]
  exact Int.le_floor.mpr (by exact_mod_cast h)

theorem truncInt_le_of_le {q : ℚ} {n : ℤ} (h0 : 0 ≤ q) (h : q ≤ (n : ℚ)) :
    truncInt q ≤ n := by
  rw [truncInt_eq_floor h0]
  calc ⌊q⌋ ≤ ⌊(n : ℚ)⌋ := Int.floor_le_floor h
    _ = n := Int.floor_intCast n

theorem le_truncInt_of_le {q : ℚ} {n : ℤ} (h0 : 0 ≤ q) (h : (n : ℚ) ≤ q) :
    n ≤ truncInt q := by
  rw [truncInt_eq_floor h0]
  exact Int.le_floor.mpr h

theorem truncInt_mono_of_nonneg {a b : ℚ} (h0 : 0 ≤ a) (h : a ≤ b) :
    truncInt a ≤ truncInt b := by
  rw [truncInt_eq_floor h0, truncInt_eq_floor (le_trans h0 h)]
  exact Int.floor_le_floor h

namespace TravelCalculator

/-- `calculate_travel_time` of a zero-length travel is zero (whatever the
configured durations and the `position_closed` divisor are). -/
theorem calculate_travel_time_self (c : TravelCalculator) (p : ℤ) :
    c.calculate_travel_time p p = 0 := by
  simp [calculate_travel_time]

/-- As long as a position is known, `current_position()` never returns
`None`: every branch of `_calculate_position` produces a value. -/
theorem current_position_isSome (c : TravelCalculator) (p : ℤ)
    (h : c.last_known_position = some p) (t : ℚ) :
    ∃ q : ℤ, c.current_position t = some q := by
  unfold current_position calculate_position
  cases hc : c.position_confirmed
  · simp only [hc, Bool.false_eq_true, if_false]
    cases htp : c.travel_to_position
    · simp only [htp]
      exact ⟨p, h⟩
    · simp only [htp, h]
      split
      · exact ⟨p, rfl⟩
      · exact ⟨_, rfl⟩
  · simp only [hc, if_true]
    exact ⟨p, h⟩

/-- `stop()` at a state with a known position pins the sampled current
position into both `last_known_position` and `travel_to_position`. -/
theorem stop_eq_of_current (c : TravelCalculator) (sp : ℤ) (t : ℚ)
    (h : c.current_position t = some sp) :
    c.stop t =
      { c with
        last_known_position := some sp
        travel_to_position := some sp
        position_confirmed := false
        travel_direction := TravelStatus.STOPPED } := by
  unfold stop
  rw [h]

/-- A pinned state (`last_known_position = travel_to_position`, not
confirmed) reports the pinned value at every query time: the zero
remaining-travel-time guard short-circuits the interpolation. -/
theorem current_position_pinned (c : TravelCalculator) (sp : ℤ)
    (hl : c.last_known_position = some sp)
    (ht : c.travel_to_position = some sp) (t : ℚ) :
    c.current_position t = some sp := by
  unfold current_position calculate_position
  cases hc : c.position_confirmed
  · simp [hl, ht, calculate_travel_time_self]
  · simp [hl]

end TravelCalculator

/-! ## Claim C5 -/

/-- C5: with `travel_time_down = 40` and `travel_time_up = 30`, after
`set_position(0)` and `start_travel(100)` at `t = 0`, `current_position()`
at `t = 20` is exactly `50`, and at the nominal completion time `t = 40`
the raw unclamped interpolation yields exactly `100`. -/
theorem C5_scenario_midpoint_and_completion :
    (((TravelCalculator.init 40 30).set_position 0 0).start_travel 0
        100).current_position 20 = some 50 ∧
    (((TravelCalculator.init 40 30).set_position 0 0).start_travel 0
        100).current_position 40 = some 100 := by
  constructor <;>
    simp [TravelCalculator.current_position, TravelCalculator.start_travel,
      TravelCalculator.stop, TravelCalculator.set_position,
      TravelCalculator.update_position, TravelCalculator.calculate_position,
      TravelCalculator.calculate_travel_time, TravelCalculator.init,
      truncInt]
  all_goals norm_num [Int.floor_eq_iff]

/-! ## Claim C6 -/

/-- C6: immediately after construction (before any command or status
event) the cover reports `is_closed = true` and the estimator's position
is confirmed and equals `POSITION_CLOSED`, at every query time. -/
theorem C6_initial_state_closed (travel_time_up travel_time_down now t : ℚ) :
    (EleroCover.init travel_time_up travel_time_down now).is_closed =
      some true ∧
    (EleroCover.init travel_time_up travel_time_down
        now).travel_calculator.position_confirmed = true ∧
    (EleroCover.init travel_time_up travel_time_down
        now).travel_calculator.current_position t = some POSITION_CLOSED := by
  refine ⟨?_, ?_, ?_⟩ <;>
    simp [EleroCover.init, EleroCover.is_closed, POSITION_CLOSED,
      TravelCalculator.init, TravelCalculator.set_position,
      TravelCalculator.update_position, TravelCalculator.current_position]

/-! ## Claim C4 -/

/-- C4 fails as stated: `update_position` has no `else` branch, so a
previously-true `position_confirmed` survives an update to a position that
differs from the in-flight target.  Concretely: after `set_position(50)`
(which confirms the position), `update_position(30)` leaves
`position_confirmed = true` although `30 ≠ 50 = travel_to_position`,
whereas the claim demands it become false. -/
theorem C4_counterexample_confirmed_survives :
    (((TravelCalculator.init 40 30).set_position 0 50).update_position 1
        30).travel_to_position = some 50 ∧
    (((TravelCalculator.init 40 30).set_position 0 50).update_position 1
        30).position_confirmed = true ∧
    ¬((((TravelCalculator.init 40 30).set_position 0 50).update_position 1
        30).position_confirmed =
      decide (((30 : ℤ)) =
        ((((TravelCalculator.init 40 30).set_position 0 50).update_position 1
            30).travel_to_position.getD 0))) := by
  refine ⟨rfl, rfl, ?_⟩
  simp [TravelCalculator.init, TravelCalculator.set_position,
    TravelCalculator.update_position]

/-- C4 (amended): `update_position(p)` records `p` as the last known
position and stamps the timestamp; `position_confirmed` becomes true when
`p` equals `travel_to_position` and is left unchanged otherwise (it is
never reset to false). -/
theorem C4_update_position_amended (c : TravelCalculator) (now : ℚ)
    (p : ℤ) :
    (c.update_position now p).last_known_position = some p ∧
    (c.update_position now p).last_known_position_timestamp = now ∧
    (c.update_position now p).travel_to_position = c.travel_to_position ∧
    (c.update_position now p).position_confirmed =
      (c.position_confirmed || decide (some p = c.travel_to_position)) := by
  refine ⟨rfl, rfl, rfl, ?_⟩
  by_cases h : some p = c.travel_to_position <;>
    cases hc : c.position_confirmed <;>
      simp [TravelCalculator.update_position, h, hc]

/-! ## Claim C9 -/

/-- C9: each fault status code (blocking, overheated, timeout) drives the
normalized state to Unknown, clears position, tilt position and the
opening/closing/closed flags to unknown for every prior state, and the
branch emits an error report; `set_states` is a total function (the path
raises no exception). -/
theorem C9_fault_codes_degrade_to_unknown (c : EleroCover) (s : EleroInfo)
    (h : s = EleroInfo.INFO_BLOCKING ∨ s = EleroInfo.INFO_OVERHEATED ∨
      s = EleroInfo.INFO_TIMEOUT) :
    (c.set_states s).state = some HAState.STATE_UNKNOWN ∧
    (c.set_states s).position = none ∧
    (c.set_states s).tilt_position = none ∧
    (c.set_states s).closed = none ∧
    (c.set_states s).is_opening = none ∧
    (c.set_states s).is_closing = none ∧
    EleroCover.set_states_error_logged s = true := by
  rcases h with h | h | h <;> subst h <;>
    simp [EleroCover.set_states, EleroCover.set_states_error_logged]

/-- Witness for C9 at the blocking fault on a freshly constructed cover. -/
theorem C9_fault_codes_degrade_to_unknown_witness :
    ((EleroCover.init 30 40 0).set_states EleroInfo.INFO_BLOCKING).state =
      some HAState.STATE_UNKNOWN ∧
    ((EleroCover.init 30 40 0).set_states
        EleroInfo.INFO_BLOCKING).position = none ∧
    ((EleroCover.init 30 40 0).set_states
        EleroInfo.INFO_BLOCKING).tilt_position = none ∧
    ((EleroCover.init 30 40 0).set_states
        EleroInfo.INFO_BLOCKING).closed = none ∧
    ((EleroCover.init 30 40 0).set_states
        EleroInfo.INFO_BLOCKING).is_opening = none ∧
    ((EleroCover.init 30 40 0).set_states
        EleroInfo.INFO_BLOCKING).is_closing = none ∧
    EleroCover.set_states_error_logged EleroInfo.INFO_BLOCKING = true :=
  C9_fault_codes_degrade_to_unknown (EleroCover.init 30 40 0)
    EleroInfo.INFO_BLOCKING (Or.inl rfl)

/-! ## Claim C10 -/

/-- C10: the `is_closed` property is computed solely from the cached
`_position` field (`none` when the field is unset, `true` exactly when the
field equals `POSITION_CLOSED`), and the command methods `open_cover`,
`close_cover` and `stop_cover` leave that cached field — and hence
`is_closed` — unchanged. -/
theorem C10_is_closed_frame (c : EleroCover) (t : ℚ) (p : ℤ) :
    (c.position = none → c.is_closed = none) ∧
    (c.position = some p →
      c.is_closed = some (decide (p = POSITION_CLOSED))) ∧
    (c.open_cover t).position = c.position ∧
    (c.close_cover t).position = c.position ∧
    (c.stop_cover t).position = c.position ∧
    (c.open_cover t).is_closed = c.is_closed ∧
    (c.close_cover t).is_closed = c.is_closed ∧
    (c.stop_cover t).is_closed = c.is_closed := by
  refine ⟨fun h => ?_, fun h => ?_, rfl, rfl, rfl, rfl, rfl, rfl⟩ <;>
    simp [EleroCover.is_closed, h]

/-- Witness for C10: a fresh cover has its cached position set, `is_closed`
computes from it, and `open_cover` leaves `is_closed` unchanged. -/
theorem C10_is_closed_frame_witness :
    (EleroCover.init 30 40 0).is_closed =
      some (decide ((0 : ℤ) = POSITION_CLOSED)) ∧
    ((EleroCover.init 30 40 0).open_cover 1).is_closed =
      (EleroCover.init 30 40 0).is_closed :=
  ⟨(C10_is_closed_frame (EleroCover.init 30 40 0) 1 0).2.1 rfl,
   (C10_is_closed_frame (EleroCover.init 30 40 0) 1 0).2.2.2.2.2.2.1⟩

/-! ## Claim C1 -/

/-- C1 fails as stated: `set_states` never calls `update_position` or
`set_position` on the travel calculator.  Concretely: start a cover toward
position 50, deliver the bottom-position-stop status, and the estimator is
bit-for-bit unchanged — ten seconds later it still interpolates `some 25`,
not the closed-position constant. -/
theorem C1_counterexample_estimator_not_updated :
    (((EleroCover.init 30 40 0).set_cover_position 0 50).set_states
        EleroInfo.INFO_BOTTOM_POSITION_STOP).travel_calculator =
      ((EleroCover.init 30 40 0).set_cover_position 0 50).travel_calculator ∧
    (((EleroCover.init 30 40 0).set_cover_position 0 50).set_states
        EleroInfo.INFO_BOTTOM_POSITION_STOP).travel_calculator.position_confirmed
      = false ∧
    (((EleroCover.init 30 40 0).set_cover_position 0 50).set_states
        EleroInfo.INFO_BOTTOM_POSITION_STOP).travel_calculator.current_position
        10 = some 25 ∧
    some POSITION_CLOSED ≠
      (((EleroCover.init 30 40 0).set_cover_position 0 50).set_states
          EleroInfo.INFO_BOTTOM_POSITION_STOP).travel_calculator.current_position
          10 := by
  refine ⟨rfl, rfl, ?_, ?_⟩ <;>
    simp [EleroCover.init, EleroCover.set_cover_position,
      EleroCover.set_states, POSITION_CLOSED,
      TravelCalculator.current_position, TravelCalculator.start_travel,
      TravelCalculator.stop, TravelCalculator.set_position,
      TravelCalculator.update_position, TravelCalculator.calculate_position,
      TravelCalculator.calculate_travel_time, TravelCalculator.init,
      truncInt]
  all_goals norm_num [Int.floor_eq_iff]

/-- C1 (amended): for every prior state, the bottom-position-stop status
sets the normalized state to Closed, the closed flag (and the `is_closed`
property) to true, the opening/closing flags to false, and the cached
position to the closed-position constant — but it performs no
`update_position`/`set_position` call: the travel calculator is left
exactly as it was. -/
theorem C1_bottom_stop_amended (c : EleroCover) :
    (c.set_states EleroInfo.INFO_BOTTOM_POSITION_STOP).state =
      some HAState.STATE_CLOSED ∧
    (c.set_states EleroInfo.INFO_BOTTOM_POSITION_STOP).closed = some true ∧
    (c.set_states EleroInfo.INFO_BOTTOM_POSITION_STOP).is_closed =
      some true ∧
    (c.set_states EleroInfo.INFO_BOTTOM_POSITION_STOP).is_opening =
      some false ∧
    (c.set_states EleroInfo.INFO_BOTTOM_POSITION_STOP).is_closing =
      some false ∧
    (c.set_states EleroInfo.INFO_BOTTOM_POSITION_STOP).position =
      some POSITION_CLOSED ∧
    (c.set_states EleroInfo.INFO_BOTTOM_POSITION_STOP).travel_calculator =
      c.travel_calculator := by
  simp [EleroCover.set_states, EleroCover.is_closed, POSITION_CLOSED]

/-! ## Claim C3 -/

/-- C3 fails on the code: each public command method updates the internal
state (estimator travel and the motion flags), but none of them hands any
command to the transmitter — the source holds only placeholder comments
where the send should be, so the transmitter trace never grows.  This
contradicts both the spec and the code's own comments, on every input. -/
theorem C3_commands_never_reach_transmitter (c : EleroCover) (now : ℚ)
    (p : ℤ) :
    (c.open_cover now).sent = c.sent ∧
    (c.close_cover now).sent = c.sent ∧
    (c.stop_cover now).sent = c.sent ∧
    (c.set_cover_position now p).sent = c.sent ∧
    (c.open_cover now).is_opening = some true ∧
    (c.open_cover now).is_closing = some false ∧
    (c.close_cover now).is_closing = some true ∧
    (c.close_cover now).is_opening = some false ∧
    (c.stop_cover now).is_opening = some false ∧
    (c.stop_cover now).is_closing = some false ∧
    (c.open_cover now).travel_calculator =
      c.travel_calculator.start_travel now
        c.travel_calculator.position_open ∧
    (c.close_cover now).travel_calculator =
      c.travel_calculator.start_travel now
        c.travel_calculator.position_closed ∧
    (c.stop_cover now).travel_calculator = c.travel_calculator.stop now ∧
    (c.set_cover_position now p).travel_calculator =
      c.travel_calculator.start_travel now p := by
  exact ⟨rfl, rfl, rfl, rfl, rfl, rfl, rfl, rfl, rfl, rfl, rfl, rfl, rfl,
    rfl⟩

/-! ## Evaluation and positivity lemmas for the interpolation path -/

/-- Evaluation of `current_position()` on the interpolation path: with an
unconfirmed position, both endpoints known and a nonzero remaining travel
time, the result is the truncated linear interpolation of the source. -/
theorem TravelCalculator.current_position_eval (c : TravelCalculator)
    (t : ℚ) (lp tp : ℤ) (hc : c.position_confirmed = false)
    (hlp : c.last_known_position = some lp)
    (htp : c.travel_to_position = some tp)
    (hrt : c.calculate_travel_time lp tp ≠ 0) :
    c.current_position t =
      some (truncInt ((lp : ℚ) + ((tp - lp : ℤ) : ℚ) *
        ((t - c.last_known_position_timestamp) /
          c.calculate_travel_time lp tp))) := by
  unfold TravelCalculator.current_position TravelCalculator.calculate_position
  simp only [hc, Bool.false_eq_true, if_false, htp, hlp]
  rw [if_neg hrt]

/-- The remaining travel time between two distinct positions is strictly
positive whenever the configured durations and the full-range divisor
are. -/
theorem TravelCalculator.calculate_travel_time_pos (c : TravelCalculator)
    (hpc : 0 < c.position_closed) (hdown : 0 < c.travel_time_down)
    (hup : 0 < c.travel_time_up) (a b : ℤ) (hne : a ≠ b) :
    0 < c.calculate_travel_time a b := by
  simp only [TravelCalculator.calculate_travel_time]
  apply div_pos
  · apply mul_pos
    · split
      · exact hdown
      · exact hup
    · have hab : (b - a).natAbs ≠ 0 := by
        rw [Int.natAbs_ne_zero, sub_ne_zero]
        exact fun h => hne h.symm
      exact_mod_cast Nat.pos_of_ne_zero hab
  · exact_mod_cast hpc

/-- The remaining travel time is never negative when the configured
durations and the divisor are nonnegative. -/
theorem TravelCalculator.calculate_travel_time_nonneg (c : TravelCalculator)
    (hpc : 0 ≤ c.position_closed) (hdown : 0 ≤ c.travel_time_down)
    (hup : 0 ≤ c.travel_time_up) (a b : ℤ) :
    0 ≤ c.calculate_travel_time a b := by
  simp only [TravelCalculator.calculate_travel_time]
  apply div_nonneg
  · apply mul_nonneg
    · split
      · exact hdown
      · exact hup
    · positivity
  · exact_mod_cast hpc

/-! ## Claim C7 -/

/-- C7: once a position is known, `stop()` pins a position; a second
`stop()` at any later instant is a no-op (the state is bit-for-bit the
same), and `current_position()` reports the pinned value at every
subsequent query time — no drift after the first stop. -/
theorem C7_stop_idempotent_no_drift (c : TravelCalculator) (p : ℤ)
    (h : c.last_known_position = some p) (t1 t2 : ℚ) :
    ∃ sp : ℤ,
      (c.stop t1).last_known_position = some sp ∧
      (c.stop t1).travel_to_position = some sp ∧
      (c.stop t1).stop t2 = c.stop t1 ∧
      ∀ t : ℚ, (c.stop t1).current_position t = some sp := by
  obtain ⟨sp, hsp⟩ := TravelCalculator.current_position_isSome c p h t1
  have h1 := TravelCalculator.stop_eq_of_current c sp t1 hsp
  have hl : (c.stop t1).last_known_position = some sp := by rw [h1]
  have htp : (c.stop t1).travel_to_position = some sp := by rw [h1]
  have hcur : ∀ t : ℚ, (c.stop t1).current_position t = some sp :=
    fun t => TravelCalculator.current_position_pinned _ sp hl htp t
  refine ⟨sp, hl, htp, ?_, hcur⟩
  have h2 := TravelCalculator.stop_eq_of_current (c.stop t1) sp t2 (hcur t2)
  rw [h2, h1]

/-- Witness for C7: a calculator whose position was set to 7, stopped at
`t = 3` and again at `t = 9`. -/
theorem C7_stop_idempotent_no_drift_witness :
    ∃ sp : ℤ,
      (((TravelCalculator.init 40 30).set_position 0 7).stop
          3).last_known_position = some sp ∧
      (((TravelCalculator.init 40 30).set_position 0 7).stop
          3).travel_to_position = some sp ∧
      ((((TravelCalculator.init 40 30).set_position 0 7).stop 3).stop 9) =
        ((TravelCalculator.init 40 30).set_position 0 7).stop 3 ∧
      ∀ t : ℚ,
        (((TravelCalculator.init 40 30).set_position 0 7).stop
            3).current_position t = some sp :=
  C7_stop_idempotent_no_drift
    ((TravelCalculator.init 40 30).set_position 0 7) 7 rfl 3 9

/-! ## Claim C2 -/

/-- C2 fails as stated: the interpolation does not clamp progress, so a
query after the nominal completion time escapes `[0,100]`.  Concretely:
`travel_time_down = 40`, travel from 0 toward 100 starting at `t = 0`,
queried at `t = 80`, returns `200`. -/
theorem C2_counterexample_overshoot :
    (((TravelCalculator.init 40 30).set_position 0 0).start_travel 0
        100).current_position 80 = some 200 ∧ ¬((200 : ℤ) ≤ 100) := by
  constructor
  · simp [TravelCalculator.current_position, TravelCalculator.start_travel,
      TravelCalculator.stop, TravelCalculator.set_position,
      TravelCalculator.update_position, TravelCalculator.calculate_position,
      TravelCalculator.calculate_travel_time, TravelCalculator.init,
      truncInt]
    norm_num [Int.floor_eq_iff]
  · decide

/-- C2 (amended): position values stay within `[0,100]` only while the
query time lies inside the nominal travel window.  For any state whose
known and target positions are in `[0,100]`, with positive configured
durations and divisor, `current_position()` sampled between the baseline
timestamp and the nominal completion time is defined and lies in
`[0,100]`; outside that window the unclamped formula can overshoot. -/
theorem C2_position_in_range_before_completion (c : TravelCalculator)
    (t : ℚ) (lp tp : ℤ) (hlp : c.last_known_position = some lp)
    (htp : c.travel_to_position = some tp) (hlp0 : 0 ≤ lp)
    (hlp1 : lp ≤ 100) (htp0 : 0 ≤ tp) (htp1 : tp ≤ 100)
    (hpc : 0 < c.position_closed) (hdown : 0 < c.travel_time_down)
    (hup : 0 < c.travel_time_up)
    (ht0 : c.last_known_position_timestamp ≤ t)
    (ht1 : t ≤ c.last_known_position_timestamp +
      c.calculate_travel_time lp tp) :
    ∃ q : ℤ, c.current_position t = some q ∧ 0 ≤ q ∧ q ≤ 100 := by
  cases hc : c.position_confirmed
  · by_cases hrt : c.calculate_travel_time lp tp = 0
    · refine ⟨lp, ?_, hlp0, hlp1⟩
      unfold TravelCalculator.current_position
        TravelCalculator.calculate_position
      simp only [hc, Bool.false_eq_true, if_false, htp, hlp]
      rw [if_pos hrt]
    · have hT0 : 0 ≤ c.calculate_travel_time lp tp :=
        TravelCalculator.calculate_travel_time_nonneg c hpc.le hdown.le
          hup.le lp tp
      have hTpos : 0 < c.calculate_travel_time lp tp :=
        lt_of_le_of_ne hT0 (Ne.symm hrt)
      have he := TravelCalculator.current_position_eval c t lp tp hc hlp
        htp hrt
      set T := c.calculate_travel_time lp tp with hTdef
      set s := (t - c.last_known_position_timestamp) / T with hsdef
      have hs0 : 0 ≤ s := div_nonneg (by linarith) hTpos.le
      have hs1 : s ≤ 1 := by
        rw [hsdef, div_le_one hTpos]
        linarith
      set v : ℚ := (lp : ℚ) + ((tp - lp : ℤ) : ℚ) * s with hvdef
      have hgo : ((tp - lp : ℤ) : ℚ) = (tp : ℚ) - (lp : ℚ) := by
        push_cast
        ring
      have hv : v = (lp : ℚ) + ((tp : ℚ) - (lp : ℚ)) * s := by
        rw [hvdef, hgo]
      have hlp0' : (0 : ℚ) ≤ (lp : ℚ) := by exact_mod_cast hlp0
      have hlp1' : (lp : ℚ) ≤ 100 := by exact_mod_cast hlp1
      have htp0' : (0 : ℚ) ≤ (tp : ℚ) := by exact_mod_cast htp0
      have htp1' : (tp : ℚ) ≤ 100 := by exact_mod_cast htp1
      have hv0 : 0 ≤ v := by nlinarith [hv, hs0, hs1]
      have hv1 : v ≤ 100 := by nlinarith [hv, hs0, hs1]
      exact ⟨truncInt v, he, truncInt_nonneg hv0,
        truncInt_le_of_le hv0 (by exact_mod_cast hv1)⟩
  · refine ⟨lp, ?_, hlp0, hlp1⟩
    unfold TravelCalculator.current_position
    simp only [hc, if_true]
    exact hlp

/-- Witness for C2 (amended) in the C5 scenario at the in-window query
time `t = 20`. -/
theorem C2_position_in_range_before_completion_witness :
    ∃ q : ℤ,
      (((TravelCalculator.init 40 30).set_position 0 0).start_travel 0
          100).current_position 20 = some q ∧ 0 ≤ q ∧ q ≤ 100 :=
  C2_position_in_range_before_completion
    (((TravelCalculator.init 40 30).set_position 0 0).start_travel 0 100)
    20 0 100 rfl rfl (by decide) (by decide) (by decide) (by decide)
    (by decide) (by decide) (by decide) (by decide)
    (by
      simp [TravelCalculator.calculate_travel_time,
        TravelCalculator.start_travel, TravelCalculator.stop,
        TravelCalculator.set_position, TravelCalculator.update_position,
        TravelCalculator.current_position, TravelCalculator.init]
      norm_num)

/-! ## Claim C8 -/

/-- The in-flight state produced by `set_position(o)` followed by
`start_travel(g)` at time `t0` on a fresh calculator: origin `o` as
baseline, target `g`, timestamp `t0`, unconfirmed. -/
theorem TravelCalculator.start_travel_after_set (ttd ttu t0 : ℚ)
    (o g : ℤ) :
    ((TravelCalculator.init ttd ttu).set_position t0 o).start_travel t0 g =
      { travel_direction :=
          if g > o then TravelStatus.DIRECTION_DOWN
          else TravelStatus.DIRECTION_UP
        travel_time_down := ttd
        travel_time_up := ttu
        last_known_position := some o
        last_known_position_timestamp := t0
        position_confirmed := false
        travel_to_position := some g
        position_closed := 100
        position_open := 0 } := by
  simp [TravelCalculator.init, TravelCalculator.set_position,
    TravelCalculator.update_position, TravelCalculator.start_travel,
    TravelCalculator.stop, TravelCalculator.current_position]

/-- C8: during an in-flight `start_travel(g)` from a known origin `o ≠ g`,
two samples of `current_position()` at increasing times within the nominal
travel window move monotonically from `o` toward `g`: the later sample is
at least as close to the target and neither sample is on the far side of
`o` or past `g`. -/
theorem C8_monotone_toward_target (ttd ttu : ℚ) (hd : 0 < ttd)
    (hu : 0 < ttu) (o g : ℤ) (ho0 : 0 ≤ o) (hg0 : 0 ≤ g) (hne : g ≠ o)
    (t0 t1 t2 : ℚ) (h01 : t0 ≤ t1) (h12 : t1 ≤ t2)
    (hend : t2 ≤ t0 +
      (((TravelCalculator.init ttd ttu).set_position t0 o).start_travel t0
          g).calculate_travel_time o g) :
    ∃ q1 q2 : ℤ,
      (((TravelCalculator.init ttd ttu).set_position t0 o).start_travel t0
          g).current_position t1 = some q1 ∧
      (((TravelCalculator.init ttd ttu).set_position t0 o).start_travel t0
          g).current_position t2 = some q2 ∧
      (o ≤ g → o ≤ q1 ∧ q1 ≤ q2 ∧ q2 ≤ g) ∧
      (g ≤ o → g ≤ q2 ∧ q2 ≤ q1 ∧ q1 ≤ o) := by
  set c := ((TravelCalculator.init ttd ttu).set_position t0 o).start_travel
    t0 g with hcdef
  have hstate := TravelCalculator.start_travel_after_set ttd ttu t0 o g
  rw [← hcdef] at hstate
  have hc : c.position_confirmed = false := by rw [hstate]
  have hlp : c.last_known_position = some o := by rw [hstate]
  have htpp : c.travel_to_position = some g := by rw [hstate]
  have hts : c.last_known_position_timestamp = t0 := by rw [hstate]
  have hTpos : 0 < c.calculate_travel_time o g := by
    apply TravelCalculator.calculate_travel_time_pos
    · rw [hstate]
      norm_num
    · rw [hstate]
      exact hd
    · rw [hstate]
      exact hu
    · exact fun h => hne h.symm
  have hrt : c.calculate_travel_time o g ≠ 0 := hTpos.ne'
  have he1 := TravelCalculator.current_position_eval c t1 o g hc hlp htpp
    hrt
  have he2 := TravelCalculator.current_position_eval c t2 o g hc hlp htpp
    hrt
  rw [hts] at he1 he2
  set T := c.calculate_travel_time o g with hTdef
  set s1 : ℚ := (t1 - t0) / T with hs1def
  set s2 : ℚ := (t2 - t0) / T with hs2def
  have hs10 : 0 ≤ s1 := div_nonneg (by linarith) hTpos.le
  have hs12 : s1 ≤ s2 := by
    rw [hs1def, hs2def]
    exact (div_le_div_iff_of_pos_right hTpos).mpr (by linarith)
  have hs21 : s2 ≤ 1 := by
    rw [hs2def, div_le_one hTpos]
    linarith
  have hgo : ((g - o : ℤ) : ℚ) = (g : ℚ) - (o : ℚ) := by
    push_cast
    ring
  have ho0' : (0 : ℚ) ≤ (o : ℚ) := by exact_mod_cast ho0
  have hg0' : (0 : ℚ) ≤ (g : ℚ) := by exact_mod_cast hg0
  set v1 : ℚ := (o : ℚ) + ((g - o : ℤ) : ℚ) * s1 with hv1def
  set v2 : ℚ := (o : ℚ) + ((g - o : ℤ) : ℚ) * s2 with hv2def
  have hv1 : v1 = (o : ℚ) + ((g : ℚ) - (o : ℚ)) * s1 := by
    rw [hv1def, hgo]
  have hv2 : v2 = (o : ℚ) + ((g : ℚ) - (o : ℚ)) * s2 := by
    rw [hv2def, hgo]
  rcases lt_or_gt_of_ne hne with hlt | hgt
  · have hgo' : (g : ℚ) < (o : ℚ) := by exact_mod_cast hlt
    have hv1_le_o : v1 ≤ (o : ℚ) := by
      nlinarith [mul_nonneg hs10 (by linarith : (0 : ℚ) ≤ (o : ℚ) - g)]
    have hv2_le_v1 : v2 ≤ v1 := by
      nlinarith [mul_nonneg (by linarith : (0 : ℚ) ≤ (o : ℚ) - g)
        (by linarith : (0 : ℚ) ≤ s2 - s1)]
    have hg_le_v2 : (g : ℚ) ≤ v2 := by
      nlinarith [mul_nonneg (by linarith : (0 : ℚ) ≤ (o : ℚ) - g)
        (by linarith : (0 : ℚ) ≤ 1 - s2)]
    have h0v2 : 0 ≤ v2 := le_trans hg0' hg_le_v2
    have h0v1 : 0 ≤ v1 := le_trans h0v2 hv2_le_v1
    refine ⟨truncInt v1, truncInt v2, he1, he2, ?_, ?_⟩
    · intro h
      exact absurd h (not_le.mpr hlt)
    · intro _
      exact ⟨le_truncInt_of_le h0v2 hg_le_v2,
        truncInt_mono_of_nonneg h0v2 hv2_le_v1,
        truncInt_le_of_le h0v1 hv1_le_o⟩
  · have hgo' : (o : ℚ) < (g : ℚ) := by exact_mod_cast hgt
    have ho_le_v1 : (o : ℚ) ≤ v1 := by
      nlinarith [mul_nonneg hs10 (by linarith : (0 : ℚ) ≤ (g : ℚ) - o)]
    have hv1_le_v2 : v1 ≤ v2 := by
      nlinarith [mul_nonneg (by linarith : (0 : ℚ) ≤ (g : ℚ) - o)
        (by linarith : (0 : ℚ) ≤ s2 - s1)]
    have hv2_le_g : v2 ≤ (g : ℚ) := by
      nlinarith [mul_nonneg (by linarith : (0 : ℚ) ≤ (g : ℚ) - o)
        (by linarith : (0 : ℚ) ≤ 1 - s2)]
    have h0v1 : 0 ≤ v1 := le_trans ho0' ho_le_v1
    have h0v2 : 0 ≤ v2 := le_trans h0v1 hv1_le_v2
    refine ⟨truncInt v1, truncInt v2, he1, he2, ?_, ?_⟩
    · intro _
      exact ⟨le_truncInt_of_le h0v1 ho_le_v1,
        truncInt_mono_of_nonneg h0v1 hv1_le_v2,
        truncInt_le_of_le h0v2 hv2_le_g⟩
    · intro h
      exact absurd h (not_le.mpr hgt)

/-- Witness for C8: travel from 0 toward 100 with a 40 s down duration,
sampled at `t = 10` and `t = 20`. -/
theorem C8_monotone_toward_target_witness :
    ∃ q1 q2 : ℤ,
      (((TravelCalculator.init 40 30).set_position 0 0).start_travel 0
          100).current_position 10 = some q1 ∧
      (((TravelCalculator.init 40 30).set_position 0 0).start_travel 0
          100).current_position 20 = some q2 ∧
      ((0 : ℤ) ≤ 100 → 0 ≤ q1 ∧ q1 ≤ q2 ∧ q2 ≤ 100) ∧
      ((100 : ℤ) ≤ 0 → 100 ≤ q2 ∧ q2 ≤ q1 ∧ q1 ≤ 0) :=
  C8_monotone_toward_target 40 30 (by norm_num) (by norm_num) 0 100
    (by decide) (by decide) (by decide) 0 10 20 (by norm_num)
    (by norm_num)
    (by
      simp [TravelCalculator.calculate_travel_time,
        TravelCalculator.start_travel, TravelCalculator.stop,
        TravelCalculator.set_position, TravelCalculator.update_position,
        TravelCalculator.current_position, TravelCalculator.init]
      norm_num)
